import Mathlib

/-!
Shallow embedding of the tokio-trauma downloader core.

The embedding covers:
* `src/download.rs`: `Download`, `ContentRange`, `Status`, `Summary`,
  `Summary::with_status`, `Summary::fail`, and the pure header-processing part
  of `Download::fetch_range`;
* `src/downloader.rs`: the per-item `Downloader::fetch` state machine.

External effects (the HEAD probe transport, the filesystem, the transfer
request and its body stream) are supplied by a `FetchEnv` record holding the
outcome the outside world would produce at each effectful step, so `fetch`
becomes a pure function of the configuration, the descriptor and that
environment.  A `FetchTrace` records, at exactly the program points where the
source performs the effect, which requests were issued, which headers were
attached, with which `OpenOptions` flags the destination file was opened,
and the resulting file length.  The source writes through a
`tokio::io::BufWriter` that is never flushed and discards its buffer on
drop, so the file-length model (`bufWrite`, `bufLoop`) counts only the bytes
the buffering discipline pushes to the inner file.

Machine integers (`u64`) are modeled as `Nat`; the sums appearing here
(a parsed Content-Length, which `parseU64` bounds below `2 ^ 64`, plus a file
size) cannot overflow in any run relevant to the claims, so no `% 2 ^ 64`
reduction is applied.
-/

namespace TokioTrauma

/-- Download descriptor, `src/download.rs` `struct Download`.  The URL is
modeled as a plain string; its parsing is outside the claims. -/
structure Download where
  url : String
  filename : String
deriving Repr, DecidableEq, Inhabited

/-- Outcome variant, `src/download.rs` `enum Status`. -/
inductive Status where
  | Fail (reason : String)
  | NotStarted
  | Skipped (reason : String)
  | Success
deriving Repr, DecidableEq, Inhabited

/-- Per-item result record, `src/download.rs` `struct Summary`.
`status_code` models the HTTP status code as a `Nat`
(`StatusCode::BAD_REQUEST` is `400`). -/
structure Summary where
  download : Download
  status_code : Nat
  size : Nat
  status : Status
  resume : Bool
deriving Repr, DecidableEq, Inhabited

/-- Method `Summary::with_status`. -/
def Summary.with_status (s : Summary) (status : Status) : Summary :=
  { s with status := status }

/-- Method `Summary::fail`; the displayed message is already a string here. -/
def Summary.fail (s : Summary) (msg : String) : Summary :=
  { s with status := Status.Fail msg }

/-- Probe result, `src/download.rs` `struct ContentRange`. -/
structure ContentRange where
  resume : Bool
  size : Option Nat
deriving Repr, DecidableEq, Inhabited

/-- Headers of the HEAD response consulted by `Download::fetch_range`: the
raw `Accept-Ranges` and `Content-Length` header values, `none` when the
header is absent.  Header bytes are modeled as strings. -/
structure HeadResponse where
  accept_ranges : Option String
  content_length : Option String
deriving Repr, DecidableEq, Inhabited

/-- Visible-ASCII test used by `HeaderValue::to_str` in the `http` crate:
a byte is accepted when it lies in `32..127` or is a horizontal tab. -/
def isVisibleAsciiChar (c : Char) : Bool :=
  (32 ≤ c.toNat && c.toNat < 127) || c = '\t'

/-- Model of `HeaderValue::to_str(..).ok()`: the value as a string when every
byte is visible ASCII, otherwise `none`. -/
def headerValueToStr (v : String) : Option String :=
  if v.data.all isVisibleAsciiChar then some v else none

/-- Decimal value of a digit string, most significant digit first. -/
def u64OfDigits (ds : List Char) : Nat :=
  ds.foldl (fun acc c => acc * 10 + (c.toNat - 48)) 0

/-- Digit-run part of `u64::from_str`: one or more ASCII digits whose value
fits in a `u64`; anything else is `none`. -/
def parseDigits (cs : List Char) : Option Nat :=
  if cs.isEmpty then none
  else if cs.all Char.isDigit then
    if u64OfDigits cs < 2 ^ 64 then some (u64OfDigits cs) else none
  else none

/-- Model of `str::parse::<u64>().ok()`: an optional leading plus sign, then
one or more ASCII digits, with the value below `2 ^ 64`; anything else is
`none`. -/
def parseU64 (s : String) : Option Nat :=
  parseDigits (if s.data.head? = some '+' then s.data.tail else s.data)

/-- Pure part of `Download::fetch_range` (`src/download.rs` lines 36-50):
given the HEAD response headers, compute the `ContentRange`.  The transport
call itself is part of `FetchEnv.probe` below. -/
def fetch_range (resp : HeadResponse) : ContentRange :=
  let resume :=
    match resp.accept_ranges with
    | some val => if val = "none" then false else true
    | none => false
  let size := (resp.content_length.bind headerValueToStr).bind parseU64
  { resume := resume, size := size }

/-- One event of the transfer response body stream: either a chunk of the
given length together with the result of `write_all_buf` on it (`none` means
the write succeeded), or a read error from `bytes_stream`.  The environment
may mark any write call as failing; in a real run a call that only copies
into the `BufWriter` buffer cannot fail, so such environments over-
approximate the reachable behaviors — harmless for the universally
quantified theorems and unused by the concrete inputs below. -/
inductive ChunkEvent where
  | Data (len : Nat) ( write_error : Option String)
  | ReadErr (reason : String)
deriving Repr, DecidableEq, Inhabited

/-- Transfer response as seen by `fetch`: its status code and the sequence of
body-stream events. -/
structure TransferResponse where
  status : Nat
  chunks : List ChunkEvent
deriving Repr, DecidableEq, Inhabited

/-- Outside-world outcomes consumed by one run of `Downloader::fetch`:
the HEAD probe transport result, the destination path state
(`output_path.exists()`, `metadata().len()`, a possible metadata error),
the transfer `send` result, and the directory-creation and file-open
results (`none` means success). -/
structure FetchEnv where
  probe : Except String HeadResponse
  fileExists : Bool
  fileLen : Nat
  metadata_error : Option String
  send : Except String TransferResponse
  create_dir_error : Option String
  open_error : Option String
deriving Repr, Inhabited

/-- Instrumentation of one `fetch` run, recorded at the program points where
the source performs the corresponding effect:
whether the HEAD probe was sent, whether the transfer request was sent, the
offset of an attached `Range: bytes=<offset>-` header (`none` when no Range
header was attached), whether the destination file open was attempted and
with which `OpenOptions` flags (`OpenOptions::new()` starts with every flag
false; the source sets `create(true).write(true).append(can_resume)` and
never touches `truncate`), the final value of the `final_size` accumulator,
and the length of the destination file after the run.  The source wraps the
file in a `tokio::io::BufWriter` that is never flushed and whose buffered
bytes are discarded on drop, so only bytes the buffering discipline pushed
to the inner file count toward `fileLenAfter`; it is `none` when the file
was never opened, or when a write error makes the flushed amount
indeterminate. -/
structure FetchTrace where
  probeSent : Bool
  transferSent : Bool
  rangeHeader : Option Nat
  openAttempted : Bool
  openCreate : Bool
  openWrite : Bool
  openAppend : Bool
  openTruncate : Bool
  finalSize : Option Nat
  fileLenAfter : Option Nat
deriving Repr, DecidableEq, Inhabited

/-- Configuration, `src/downloader.rs` `struct Downloader`.  Headers are an
opaque list of name-value pairs; only their presence is ever consulted by the
claims. -/
structure Downloader where
  directory : String
  retries : Nat
  concurrent_downloads : Nat
  resume : Bool
  headers : Option (List (String × String))
deriving Repr, DecidableEq, Inhabited

/-- Model of `reqwest::Response::error_for_status_ref` failing: the status is
a client error (400-499) or a server error (500-599). -/
def is_error (status : Nat) : Bool :=
  400 ≤ status && status < 600

/-- Message carried by the `Fail` produced from an HTTP error status; the
exact display text of `reqwest::Error` is abstracted by this tagged form. -/
def statusErrorMsg (status : Nat) : String :=
  "HTTP status error " ++ toString status

/-- Streaming loop of `fetch` (`src/downloader.rs` lines 155-165): walk the
body events, accumulating the `final_size` counter (incremented by each
chunk length before the write is attempted); stop at the first read or write
error.  Returns `(error, final_size)`. -/
def streamLoop : List ChunkEvent → Nat → Option String × Nat
  | [], final_size => (none, final_size)
  | ChunkEvent.ReadErr reason :: _, final_size => (some reason, final_size)
  | ChunkEvent.Data len w :: rest, final_size =>
      match w with
      | some reason => (some reason, final_size + len)
      | none => streamLoop rest (final_size + len)

/-- Capacity of `tokio::io::BufWriter::new`, tokio's `DEFAULT_BUF_SIZE`. -/
def DEFAULT_BUF_SIZE : Nat := 8 * 1024

/-- Effect of one successful `write_all_buf` of a contiguous `len`-byte
chunk on the `BufWriter` state `(pending, flushed)`: if the chunk does not
fit next to the pending bytes, the pending bytes are first flushed to the
inner file; then a chunk at least as large as the capacity is written
through directly, and a smaller one is kept in the buffer. -/
def bufWrite (cap pending flushed len : Nat) : Nat × Nat :=
  let s :=
    if cap < pending + len then ((0 : Nat), flushed + pending)
    else (pending, flushed)
  if cap ≤ len then (s.1, s.2 + len) else (s.1 + len, s.2)

/-- Bytes of the response body that actually reach the destination file:
walk the body events through the never-flushed `BufWriter`; at the end of
the body, or on a read error, the writer is dropped and the pending bytes
are discarded, so the flushed count is the file's share.  A write error
aborts a call that may or may not have flushed the pending bytes first, so
the flushed amount is indeterminate there (`none`). -/
def bufLoop : List ChunkEvent → Nat → Nat → Nat → Option Nat
  | [], _, _, flushed => some flushed
  | ChunkEvent.ReadErr _ :: _, _, _, flushed => some flushed
  | ChunkEvent.Data len w :: rest, cap, pending, flushed =>
      match w with
      | some _ => none
      | none =>
        let s := bufWrite cap pending flushed len
        bufLoop rest cap s.1 s.2

/-- Completeness check of `fetch` (`src/downloader.rs` lines 104-107):
`matches!(content_length, Some(cl) if cl == size_on_disk) ||
 size_on_disk > 0 && size == size_on_disk`, where
`size = content_length.unwrap_or_default() + size_on_disk`. -/
def skipCheck (content_length : Option Nat) (size_on_disk : Nat) : Bool :=
  (match content_length with
   | some cl => cl == size_on_disk
   | none => false)
  || (decide (size_on_disk > 0)
      && (content_length.getD 0 + size_on_disk == size_on_disk))

/-- Continuation of `Downloader::fetch` after the resume block
(`src/downloader.rs` lines 104-167): the completeness check, the transfer
request with its optional Range header, response handling, directory
creation, the file open with `create(true).write(true).append(can_resume)`
(note: no truncation), and the streaming loop through the never-flushed
`BufWriter`.  When the flushed byte count is determinate, the destination
file length after the run is `old + flushed` in append mode and
`max old flushed` otherwise, since a non-truncating positioned write only
overwrites a prefix of a longer existing file. -/
def fetchTransfer (self : Downloader) (env : FetchEnv) (summary : Summary)
    (can_resume : Bool) (content_length : Option Nat) (size_on_disk : Nat)
    (tr : FetchTrace) : Summary × FetchTrace :=
  let size := content_length.getD 0 + size_on_disk
  if skipCheck content_length size_on_disk then
    (summary.with_status (Status.Skipped "the file was already full download"), tr)
  else
    let rangeHeader :=
      if self.resume && can_resume then some size_on_disk else none
    let tr := { tr with transferSent := true, rangeHeader := rangeHeader }
    match env.send with
    | Except.error err => (summary.fail err, tr)
    | Except.ok response =>
      let summary :=
        { summary with
            status_code := response.status, size := size, resume := can_resume }
      if is_error response.status then
        (summary.fail (statusErrorMsg response.status), tr)
      else
        match env.create_dir_error with
        | some err => (summary.fail err, tr)
        | none =>
          let tr :=
            { tr with
              openAttempted := true, openCreate := true,
              openWrite := true, openAppend := can_resume,
              openTruncate := false }
          match env.open_error with
          | some err => (summary.fail err, tr)
          | none =>
            let oldLen := if env.fileExists then env.fileLen else 0
            let res := streamLoop response.chunks size_on_disk
            let flushed := bufLoop response.chunks DEFAULT_BUF_SIZE 0 0
            let tr :=
              { tr with
                finalSize := some res.2,
                fileLenAfter := flushed.map (fun f =>
                  if can_resume then oldLen + f else max oldLen f) }
            match res.1 with
            | some err => (summary.fail err, tr)
            | none => (summary.with_status Status.Success, tr)

/-- Initial Summary built at the top of `fetch` (`src/downloader.rs` lines
73-79): `NotStarted`, the `BAD_REQUEST` sentinel status code, zero size,
`resume` false. -/
def initSummary (download : Download) : Summary :=
  { download := download, status_code := 400, size := 0,
    status := Status.NotStarted, resume := false }

/-- Empty instrumentation record at the start of one `fetch` run. -/
def initTrace : FetchTrace :=
  { probeSent := false, transferSent := false, rangeHeader := none,
    openAttempted := false, openCreate := false, openWrite := false,
    openAppend := false, openTruncate := false,
    finalSize := none, fileLenAfter := none }

/-- Entry point `Downloader::fetch` (`src/downloader.rs` lines 69-167):
initialize the Summary, run the probe and on-disk size reconciliation when
resume is enabled, then hand over to `fetchTransfer`. -/
def fetch (self : Downloader) (download : Download) (env : FetchEnv) :
    Summary × FetchTrace :=
  let summary : Summary := initSummary download
  let tr : FetchTrace := initTrace
  if self.resume then
    let tr := { tr with probeSent := true }
    match env.probe with
    | Except.error err => (summary.fail err, tr)
    | Except.ok headResp =>
      let data := fetch_range headResp
      let can_resume := data.resume
      let content_length := data.size
      if can_resume && env.fileExists then
        match env.metadata_error with
        | some err => (summary.fail err, tr)
        | none =>
          fetchTransfer self env { summary with resume := can_resume }
            can_resume content_length env.fileLen tr
      else
        fetchTransfer self env { summary with resume := can_resume }
          can_resume content_length 0 tr
  else
    fetchTransfer self env summary false none 0 tr

/-- Probe capability as a function of the environment: what `can_resume`
becomes when the probe runs and succeeds. -/
def envCanResume (env : FetchEnv) : Bool :=
  match env.probe with
  | Except.ok resp => (fetch_range resp).resume
  | Except.error _ => false

/-- On-disk size as reconciled by `fetch`: the existing file length only when
resume is enabled, the probe reported resumable, and the file exists. -/
def envSizeOnDisk (self : Downloader) (env : FetchEnv) : Nat :=
  if self.resume && envCanResume env && env.fileExists then env.fileLen else 0

/-- Content length as a function of the environment: the parsed
Content-Length of a successful probe. -/
def envContentLength (env : FetchEnv) : Option Nat :=
  match env.probe with
  | Except.ok resp => (fetch_range resp).size
  | Except.error _ => none

/-- Boolean test for the `Skipped` variant. -/
def Status.isSkipped : Status → Bool
  | Status.Skipped _ => true
  | _ => false

/-- Specification-side description of a string accepted by `u64::from_str`:
an optional leading plus sign, then a nonempty run of ASCII digits whose
decimal value is `n` and fits in a `u64`. -/
def validU64String (s : String) (n : Nat) : Prop :=
  ∃ ds : List Char, (s.data = ds ∨ s.data = '+' :: ds) ∧ ds ≠ [] ∧
    ds.all Char.isDigit = true ∧ u64OfDigits ds = n ∧ n < 2 ^ 64

/-! Concrete inputs used by the evaluation theorems below. -/

/-- Sample descriptor. -/
def dlX : Download := { url := "http://host/file.bin", filename := "file.bin" }

/-- Configuration with resume enabled (the default). -/
def selfResume : Downloader :=
  { directory := "out", retries := 0, concurrent_downloads := 32,
    resume := true, headers := none }

/-- Configuration with resume disabled. -/
def selfNoResume : Downloader := { selfResume with resume := false }

/-- Environment used to instantiate claim C10: a plain successful run. -/
def envC10w : FetchEnv :=
  { probe := Except.error "unused", fileExists := false, fileLen := 0,
    metadata_error := none,
    send := Except.ok { status := 200, chunks := [ChunkEvent.Data 1000 none] },
    create_dir_error := none, open_error := none }

/-- Environment used to instantiate claim C7. -/
def envC7w : FetchEnv :=
  { probe := Except.error "unused", fileExists := true, fileLen := 50,
    metadata_error := none,
    send := Except.ok { status := 200, chunks := [ChunkEvent.Data 7 none] },
    create_dir_error := none, open_error := none }

/-- Probe response with Accept-Ranges "none", used to instantiate claim C8. -/
def respC8 : HeadResponse :=
  { accept_ranges := some "none", content_length := some "1000" }

/-- Environment used to instantiate claim C8. -/
def envC8w : FetchEnv :=
  { probe := Except.ok respC8, fileExists := true, fileLen := 400,
    metadata_error := none,
    send := Except.ok { status := 200, chunks := [ChunkEvent.Data 1000 none] },
    create_dir_error := none, open_error := none }

/-- Error transfer response used to instantiate claim C6. -/
def respC6 : TransferResponse := { status := 404, chunks := [] }

/-- Environment used to instantiate claim C6. -/
def envC6w : FetchEnv :=
  { probe := Except.error "unused", fileExists := false, fileLen := 0,
    metadata_error := none, send := Except.ok respC6,
    create_dir_error := none, open_error := none }

/-- Environment refuting claim C2 as stated: the server advertises range
support, no local file exists. -/
def envC2c : FetchEnv :=
  { probe := Except.ok { accept_ranges := some "bytes",
                         content_length := some "1000" },
    fileExists := false, fileLen := 0, metadata_error := none,
    send := Except.ok { status := 200, chunks := [ChunkEvent.Data 1000 none] },
    create_dir_error := none, open_error := none }

/-- Environment used to instantiate amended claim C2: resumable server, a
400-byte partial file, total size 1000 (spec scenario 3). -/
def envC2w : FetchEnv :=
  { probe := Except.ok { accept_ranges := some "bytes",
                         content_length := some "1000" },
    fileExists := true, fileLen := 400, metadata_error := none,
    send := Except.ok { status := 206, chunks := [ChunkEvent.Data 600 none] },
    create_dir_error := none, open_error := none }

/-- Transfer response writing 3 fresh bytes, used against claim C3. -/
def respC3 : TransferResponse :=
  { status := 200, chunks := [ChunkEvent.Data 3 none] }

/-- Environment refuting claim C3 as stated: the server denies ranges, so
the transfer is fresh, over an existing 10-byte destination file. -/
def envC3c : FetchEnv :=
  { probe := Except.ok { accept_ranges := some "none", content_length := none },
    fileExists := true, fileLen := 10, metadata_error := none,
    send := Except.ok respC3,
    create_dir_error := none, open_error := none }

/-- Probe response reporting a resumable server and total size 100, used
against claim C4. -/
def respC4 : HeadResponse :=
  { accept_ranges := some "bytes", content_length := some "100" }

/-- Environment whose on-disk file already holds all 100 bytes, so the skip
rule fires. -/
def envC4c : FetchEnv :=
  { probe := Except.ok respC4, fileExists := true, fileLen := 100,
    metadata_error := none, send := Except.error "never sent",
    create_dir_error := none, open_error := none }

/-- Environment exhibiting the C1 divergence: resume disabled (so the probed
content length stays unknown and the on-disk size stays 0), a 200-status
response streaming one 1000-byte chunk, all I/O succeeding. -/
def envC1 : FetchEnv :=
  { probe := Except.error "unused", fileExists := false, fileLen := 0,
    metadata_error := none,
    send := Except.ok { status := 200, chunks := [ChunkEvent.Data 1000 none] },
    create_dir_error := none, open_error := none }

/-! Helper lemmas about `skipCheck`, `fetchTransfer` and the control paths
of `fetch`. -/

theorem skipCheck_none_zero : skipCheck none 0 = false := by decide

theorem skipCheck_iff (cl : Option Nat) (sod : Nat) :
    skipCheck cl sod = true ↔
      (∃ n, cl = some n ∧ n = sod) ∨ (0 < sod ∧ cl.getD 0 + sod = sod) := by
  cases cl <;> simp [skipCheck]

theorem fetchTransfer_skip (self : Downloader) (env : FetchEnv) (s : Summary)
    (cr : Bool) (cl : Option Nat) (sod : Nat) (tr : FetchTrace)
    (h : skipCheck cl sod = true) :
    fetchTransfer self env s cr cl sod tr =
      (s.with_status (Status.Skipped "the file was already full download"), tr) := by
  simp [fetchTransfer, h]

theorem fetchTransfer_noskip (self : Downloader) (env : FetchEnv) (s : Summary)
    (cr : Bool) (cl : Option Nat) (sod : Nat) (tr : FetchTrace)
    (h : skipCheck cl sod = false) :
    (fetchTransfer self env s cr cl sod tr).2.transferSent = true ∧
    (fetchTransfer self env s cr cl sod tr).2.rangeHeader
        = (if self.resume && cr then some sod else none) ∧
    (fetchTransfer self env s cr cl sod tr).2.probeSent = tr.probeSent ∧
    (fetchTransfer self env s cr cl sod tr).1.status ≠ Status.NotStarted ∧
    ((fetchTransfer self env s cr cl sod tr).1.status).isSkipped = false := by
  simp only [fetchTransfer, h, Bool.false_eq_true, if_false]
  cases hs : env.send with
  | error e => simp [Summary.fail, Status.isSkipped]
  | ok response =>
    by_cases he : is_error response.status = true <;>
      cases hcd : env.create_dir_error <;>
        cases ho : env.open_error <;>
          rcases hsl : (streamLoop response.chunks sod).1 with _ | e <;>
            simp [he, Summary.fail, Summary.with_status, Status.isSkipped, hsl]

theorem fetchTransfer_send_error (self : Downloader) (env : FetchEnv)
    (s : Summary) (cr : Bool) (cl : Option Nat) (sod : Nat) (tr : FetchTrace)
    (e : String) (h : skipCheck cl sod = false)
    (hsend : env.send = Except.error e) :
    fetchTransfer self env s cr cl sod tr =
      (s.fail e,
       { tr with transferSent := true,
                 rangeHeader := if self.resume && cr then some sod else none }) := by
  simp [fetchTransfer, h, hsend]

theorem fetchTransfer_error_status (self : Downloader) (env : FetchEnv)
    (s : Summary) (cr : Bool) (cl : Option Nat) (sod : Nat) (tr : FetchTrace)
    (resp : TransferResponse) (h : skipCheck cl sod = false)
    (hsend : env.send = Except.ok resp) (herr : is_error resp.status = true) :
    (fetchTransfer self env s cr cl sod tr).1.status_code = resp.status ∧
    (fetchTransfer self env s cr cl sod tr).1.status
        = Status.Fail (statusErrorMsg resp.status) ∧
    (fetchTransfer self env s cr cl sod tr).2.openAttempted = tr.openAttempted ∧
    (fetchTransfer self env s cr cl sod tr).2.fileLenAfter = tr.fileLenAfter := by
  simp [fetchTransfer, h, hsend, herr, Summary.fail]

theorem fetchTransfer_open_flags (self : Downloader) (env : FetchEnv)
    (s : Summary) (cr : Bool) (cl : Option Nat) (sod : Nat) (tr : FetchTrace)
    (h : skipCheck cl sod = false) (htro : tr.openAttempted = false)
    (hopen : (fetchTransfer self env s cr cl sod tr).2.openAttempted = true) :
    (fetchTransfer self env s cr cl sod tr).2.openCreate = true ∧
    (fetchTransfer self env s cr cl sod tr).2.openWrite = true ∧
    (fetchTransfer self env s cr cl sod tr).2.openAppend = cr ∧
    (fetchTransfer self env s cr cl sod tr).2.openTruncate = false := by
  simp only [fetchTransfer, h, Bool.false_eq_true, if_false] at hopen ⊢
  cases hs : env.send with
  | error e =>
    rw [hs] at hopen
    simp [Summary.fail, htro] at hopen
  | ok response =>
    rw [hs] at hopen
    by_cases he : is_error response.status = true <;>
      cases hcd : env.create_dir_error <;>
        cases ho : env.open_error <;>
          rcases hsl : (streamLoop response.chunks sod).1 with _ | e <;>
            simp [he, hcd, ho, hsl, Summary.fail, Summary.with_status,
              htro] at hopen ⊢

theorem fetchTransfer_resume_eq (self : Downloader) (env : FetchEnv)
    (s : Summary) (cr : Bool) (cl : Option Nat) (sod : Nat) (tr : FetchTrace)
    (hsr : s.resume = cr) :
    (fetchTransfer self env s cr cl sod tr).1.resume = cr := by
  by_cases h : skipCheck cl sod = true
  · simp [fetchTransfer, h, Summary.with_status, hsr]
  · simp only [fetchTransfer, Bool.not_eq_true] at h ⊢
    simp only [h, Bool.false_eq_true, if_false]
    cases hs : env.send with
    | error e => simp [Summary.fail, hsr]
    | ok response =>
      by_cases he : is_error response.status = true <;>
        cases hcd : env.create_dir_error <;>
          cases ho : env.open_error <;>
            rcases hsl : (streamLoop response.chunks sod).1 with _ | e <;>
              simp [he, Summary.fail, Summary.with_status, hsl]

theorem parseDigits_eq_some (cs : List Char) (n : Nat) :
    parseDigits cs = some n ↔
      cs ≠ [] ∧ cs.all Char.isDigit = true ∧ u64OfDigits cs = n ∧ n < 2 ^ 64 := by
  unfold parseDigits
  split_ifs with h1 h2 h3 <;> simp_all [List.isEmpty_iff] <;>
    exact fun h => h ▸ h3

theorem parseU64_eq_some (s : String) (n : Nat) :
    parseU64 s = some n ↔ validU64String s n := by
  unfold parseU64 validU64String
  by_cases h : s.data.head? = some '+'
  · obtain ⟨t, ht⟩ : ∃ t, s.data = '+' :: t := by
      cases hd : s.data with
      | nil => rw [hd] at h; simp at h
      | cons c rest =>
        rw [hd] at h
        simp only [List.head?_cons, Option.some.injEq] at h
        exact ⟨rest, by rw [h]⟩
    rw [if_pos h, ht, parseDigits_eq_some]
    simp only [List.tail_cons]
    constructor
    · rintro ⟨h1, h2, h3, h4⟩
      exact ⟨t, Or.inr rfl, h1, h2, h3, h4⟩
    · rintro ⟨ds, hds | hds, h1, h2, h3, h4⟩
      · have hplus : ('+' : Char) ∈ ds := hds ▸ List.mem_cons_self _ _
        have := (List.all_eq_true.mp h2) _ hplus
        simp at this
      · injection hds with h5 h6
        subst h6
        exact ⟨h1, h2, h3, h4⟩
  · rw [if_neg h, parseDigits_eq_some]
    constructor
    · rintro ⟨h1, h2, h3, h4⟩
      exact ⟨s.data, Or.inl rfl, h1, h2, h3, h4⟩
    · rintro ⟨ds, hds | hds, h1, h2, h3, h4⟩
      · exact hds ▸ ⟨h1, h2, h3, h4⟩
      · exact absurd (by rw [hds]; rfl) h

theorem fetch_noresume (self : Downloader) (dl : Download) (env : FetchEnv)
    (h : self.resume = false) :
    fetch self dl env = fetchTransfer self env (initSummary dl) false none 0 initTrace := by
  simp [fetch, h]

theorem fetch_probe_error (self : Downloader) (dl : Download) (env : FetchEnv)
    (e : String) (hres : self.resume = true)
    (hp : env.probe = Except.error e) :
    fetch self dl env = ((initSummary dl).fail e, { initTrace with probeSent := true }) := by
  simp [fetch, hres, hp]

theorem fetch_metadata_error (self : Downloader) (dl : Download)
    (env : FetchEnv) (resp : HeadResponse) (e : String)
    (hres : self.resume = true) (hp : env.probe = Except.ok resp)
    (hcr : (fetch_range resp).resume = true) (hex : env.fileExists = true)
    (hmeta : env.metadata_error = some e) :
    fetch self dl env = ((initSummary dl).fail e, { initTrace with probeSent := true }) := by
  simp [fetch, hres, hp, hcr, hex, hmeta]

theorem fetch_probe_ok (self : Downloader) (dl : Download) (env : FetchEnv)
    (resp : HeadResponse) (hres : self.resume = true)
    (hp : env.probe = Except.ok resp)
    (hguard : ((fetch_range resp).resume && env.fileExists) = true →
      env.metadata_error = none) :
    fetch self dl env =
      fetchTransfer self env { initSummary dl with resume := envCanResume env }
        (envCanResume env) (envContentLength env) (envSizeOnDisk self env)
        { initTrace with probeSent := true } := by
  have hcr : envCanResume env = (fetch_range resp).resume := by
    simp [envCanResume, hp]
  have hclen : envContentLength env = (fetch_range resp).size := by
    simp [envContentLength, hp]
  by_cases hb : ((fetch_range resp).resume && env.fileExists) = true
  · have hmeta := hguard hb
    rcases Bool.and_eq_true_iff.mp hb with ⟨hb1, hb2⟩
    have hsod : envSizeOnDisk self env = env.fileLen := by
      simp [envSizeOnDisk, hres, hcr, hb1, hb2]
    simp [fetch, hres, hp, hb1, hb2, hmeta, hcr, hclen, hsod]
  · have hsod : envSizeOnDisk self env = 0 := by
      simp only [envSizeOnDisk, hres, hcr]
      simp only [Bool.true_and]
      simp [Bool.and_eq_true_iff] at hb
      rcases Bool.eq_false_or_eq_true (fetch_range resp).resume with h1 | h1
      · simp [h1, hb h1]
      · simp [h1]
    simp only [fetch, hres, if_true, hp]
    simp only [Bool.not_eq_true] at hb
    simp [hb, hcr, hclen, hsod]

theorem fetch_transfer_inv (self : Downloader) (dl : Download) (env : FetchEnv)
    (hreach : (fetch self dl env).2.transferSent = true ∨
      (fetch self dl env).2.openAttempted = true) :
    ∃ s tr cr cl sod,
      fetch self dl env = fetchTransfer self env s cr cl sod tr ∧
      skipCheck cl sod = false ∧
      tr.openAttempted = false ∧ tr.fileLenAfter = none ∧
      cr = (self.resume && envCanResume env) ∧
      cl = (if self.resume then envContentLength env else none) ∧
      sod = envSizeOnDisk self env := by
  cases hres : self.resume with
  | false =>
    refine ⟨initSummary dl, initTrace, false, none, 0,
      fetch_noresume self dl env hres, skipCheck_none_zero, rfl, rfl,
      ?_, ?_, ?_⟩
    · simp [hres]
    · simp [hres]
    · simp [envSizeOnDisk, hres]
  | true =>
    cases hp : env.probe with
    | error e =>
      rw [fetch_probe_error self dl env e hres hp] at hreach
      simp [initTrace] at hreach
    | ok resp =>
      by_cases hb : (((fetch_range resp).resume && env.fileExists) = true ∧
          ∃ e, env.metadata_error = some e)
      · obtain ⟨hb, e, hm⟩ := hb
        rcases Bool.and_eq_true_iff.mp hb with ⟨hb1, hb2⟩
        rw [fetch_metadata_error self dl env resp e hres hp hb1 hb2 hm] at hreach
        simp [initTrace] at hreach
      · have hguard : ((fetch_range resp).resume && env.fileExists) = true →
            env.metadata_error = none := by
          intro h1
          cases hm : env.metadata_error with
          | none => rfl
          | some e => exact absurd ⟨h1, e, hm⟩ hb
        rw [fetch_probe_ok self dl env resp hres hp hguard] at hreach ⊢
        cases hsk : skipCheck (envContentLength env) (envSizeOnDisk self env) with
        | true =>
          rw [fetchTransfer_skip _ _ _ _ _ _ _ hsk] at hreach
          simp [initTrace] at hreach
        | false =>
          exact ⟨_, _, envCanResume env, envContentLength env,
            envSizeOnDisk self env, rfl, hsk, rfl, rfl,
            by simp [hres], by simp [hres], rfl⟩

/-- Claim C9: every Summary returned by `fetch` carries a terminal status;
`NotStarted` never appears in a returned Summary, on any input or failure
path. -/
theorem claim_C9 (self : Downloader) (dl : Download) (env : FetchEnv) :
    (fetch self dl env).1.status ≠ Status.NotStarted := by
  cases hres : self.resume with
  | false =>
    rw [fetch_noresume self dl env hres]
    exact (fetchTransfer_noskip self env (initSummary dl) false none 0
      initTrace skipCheck_none_zero).2.2.2.1
  | true =>
    cases hp : env.probe with
    | error e =>
      rw [fetch_probe_error self dl env e hres hp]
      simp [Summary.fail]
    | ok resp =>
      by_cases hb : (((fetch_range resp).resume && env.fileExists) = true ∧
          ∃ e, env.metadata_error = some e)
      · obtain ⟨hb, e, hm⟩ := hb
        rcases Bool.and_eq_true_iff.mp hb with ⟨hb1, hb2⟩
        rw [fetch_metadata_error self dl env resp e hres hp hb1 hb2 hm]
        simp [Summary.fail]
      · have hguard : ((fetch_range resp).resume && env.fileExists) = true →
            env.metadata_error = none := by
          intro h1
          cases hm : env.metadata_error with
          | none => rfl
          | some e => exact absurd ⟨h1, e, hm⟩ hb
        rw [fetch_probe_ok self dl env resp hres hp hguard]
        cases hsk : skipCheck (envContentLength env) (envSizeOnDisk self env) with
        | true =>
          rw [fetchTransfer_skip _ _ _ _ _ _ _ hsk]
          simp [Summary.with_status]
        | false => exact (fetchTransfer_noskip _ _ _ _ _ _ _ hsk).2.2.2.1

/-- Claim C10: with the batch-level resume flag false, `fetch` never returns
a Skipped outcome and always issues the transfer request. -/
theorem claim_C10 (self : Downloader) (dl : Download) (env : FetchEnv)
    (hres : self.resume = false) :
    ((fetch self dl env).1.status).isSkipped = false ∧
    (fetch self dl env).2.transferSent = true := by
  rw [fetch_noresume self dl env hres]
  obtain ⟨h1, _, _, _, h5⟩ := fetchTransfer_noskip self env (initSummary dl)
    false none 0 initTrace skipCheck_none_zero
  exact ⟨h5, h1⟩

theorem claim_C10_witness :
    ((fetch selfNoResume dlX envC10w).1.status).isSkipped = false ∧
    (fetch selfNoResume dlX envC10w).2.transferSent = true :=
  claim_C10 selfNoResume dlX envC10w rfl

/-- Claim C7: with the batch-level resume flag false, no probe request is
sent and no Range header is attached to the transfer request. -/
theorem claim_C7 (self : Downloader) (dl : Download) (env : FetchEnv)
    (hres : self.resume = false) :
    (fetch self dl env).2.probeSent = false ∧
    (fetch self dl env).2.rangeHeader = none := by
  rw [fetch_noresume self dl env hres]
  obtain ⟨_, h2, h3, _, _⟩ := fetchTransfer_noskip self env (initSummary dl)
    false none 0 initTrace skipCheck_none_zero
  refine ⟨by rw [h3]; rfl, by rw [h2]; simp⟩

theorem claim_C7_witness :
    (fetch selfNoResume dlX envC7w).2.probeSent = false ∧
    (fetch selfNoResume dlX envC7w).2.rangeHeader = none :=
  claim_C7 selfNoResume dlX envC7w rfl

/-- Claim C8: when the probe response carries no Accept-Ranges header, or
one equal to "none", the returned Summary's resume field is false, whatever
the resume configuration. -/
theorem claim_C8 (self : Downloader) (dl : Download) (env : FetchEnv)
    (resp : HeadResponse) (hp : env.probe = Except.ok resp)
    (har : resp.accept_ranges = none ∨ resp.accept_ranges = some "none") :
    (fetch self dl env).1.resume = false := by
  have hcr : (fetch_range resp).resume = false := by
    rcases har with h | h <;> simp [fetch_range, h]
  cases hres : self.resume with
  | false =>
    rw [fetch_noresume self dl env hres]
    exact fetchTransfer_resume_eq _ _ _ _ _ _ _ rfl
  | true =>
    have hguard : ((fetch_range resp).resume && env.fileExists) = true →
        env.metadata_error = none := by
      rw [hcr]; simp
    have hcrE : envCanResume env = false := by simp [envCanResume, hp, hcr]
    rw [fetch_probe_ok self dl env resp hres hp hguard, hcrE]
    exact fetchTransfer_resume_eq _ _ _ _ _ _ _ rfl

theorem claim_C8_witness : (fetch selfResume dlX envC8w).1.resume = false :=
  claim_C8 selfResume dlX envC8w respC8 rfl (Or.inr rfl)

/-- Claim C6: when the transfer was actually sent and its response has an
error status, the status code is still recorded into the Summary, the
outcome is Fail with that error, and the destination file is never opened. -/
theorem claim_C6 (self : Downloader) (dl : Download) (env : FetchEnv)
    (resp : TransferResponse)
    (hsend : env.send = Except.ok resp)
    (herr : is_error resp.status = true)
    (hreach : (fetch self dl env).2.transferSent = true) :
    (fetch self dl env).1.status_code = resp.status ∧
    (fetch self dl env).1.status = Status.Fail (statusErrorMsg resp.status) ∧
    (fetch self dl env).2.openAttempted = false ∧
    (fetch self dl env).2.fileLenAfter = none := by
  obtain ⟨s, tr, cr, cl, sod, heq, hsk, hoa, hfl, _, _, _⟩ :=
    fetch_transfer_inv self dl env (Or.inl hreach)
  rw [heq]
  obtain ⟨h1, h2, h3, h4⟩ :=
    fetchTransfer_error_status self env s cr cl sod tr resp hsk hsend herr
  exact ⟨h1, h2, h3.trans hoa, h4.trans hfl⟩

theorem claim_C6_witness :
    (fetch selfNoResume dlX envC6w).1.status_code = respC6.status ∧
    (fetch selfNoResume dlX envC6w).1.status
        = Status.Fail (statusErrorMsg respC6.status) ∧
    (fetch selfNoResume dlX envC6w).2.openAttempted = false ∧
    (fetch selfNoResume dlX envC6w).2.fileLenAfter = none :=
  claim_C6 selfNoResume dlX envC6w respC6 rfl rfl rfl

/-- Counterexample to claim C2 as stated: the probe reported resumable and
the on-disk size is 0, so the claim requires a request with no Range header,
yet the code attaches a Range header with offset 0. -/
theorem claim_C2_counterexample :
    envCanResume envC2c = true ∧
    envSizeOnDisk selfResume envC2c = 0 ∧
    (fetch selfResume dlX envC2c).2.transferSent = true ∧
    (fetch selfResume dlX envC2c).2.rangeHeader = some 0 ∧
    ¬((fetch selfResume dlX envC2c).2.rangeHeader = none) := by
  refine ⟨rfl, rfl, rfl, rfl, by decide⟩

/-- Claim C2 amended: for every fetch that proceeds to transfer, a Range
header with offset equal to the reconciled on-disk size is attached exactly
when the batch resume flag is set and the probe reported resumable — even
when the on-disk size is 0, in which case a `bytes=0-` header is sent. -/
theorem claim_C2 (self : Downloader) (dl : Download) (env : FetchEnv)
    (htr : (fetch self dl env).2.transferSent = true) :
    (fetch self dl env).2.rangeHeader =
      (if self.resume && envCanResume env then some (envSizeOnDisk self env)
       else none) := by
  obtain ⟨s, tr, cr, cl, sod, heq, hsk, _, _, hcr, _, hsod⟩ :=
    fetch_transfer_inv self dl env (Or.inl htr)
  rw [heq]
  obtain ⟨_, h2, _, _, _⟩ := fetchTransfer_noskip self env s cr cl sod tr hsk
  rw [h2, hcr, hsod, ← Bool.and_assoc, Bool.and_self]

theorem claim_C2_witness :
    (fetch selfResume dlX envC2w).2.rangeHeader =
      (if selfResume.resume && envCanResume envC2w then
        some (envSizeOnDisk selfResume envC2w)
       else none) :=
  claim_C2 selfResume dlX envC2w rfl

/-- Counterexample to claim C3 as stated: a fresh (non-resume) transfer over
an existing 10-byte destination file succeeds, but the file is opened
without the truncate flag the claim requires, and the destination file
still holds its 10 old bytes afterwards (the streamed 3-byte body stayed in
the never-flushed BufWriter), so stale bytes remain past the newly written
content. -/
theorem claim_C3_counterexample :
    (fetch selfResume dlX envC3c).1.status = Status.Success ∧
    (fetch selfResume dlX envC3c).2.openAttempted = true ∧
    (fetch selfResume dlX envC3c).2.openAppend = false ∧
    (fetch selfResume dlX envC3c).2.openTruncate = false ∧
    ¬((fetch selfResume dlX envC3c).2.openTruncate = true) ∧
    envC3c.fileExists = true ∧ envC3c.fileLen = 10 ∧
    (fetch selfResume dlX envC3c).2.finalSize = some 3 ∧
    (fetch selfResume dlX envC3c).2.fileLenAfter = some 10 ∧
    ¬((fetch selfResume dlX envC3c).2.fileLenAfter = some 3) := by
  refine ⟨rfl, rfl, rfl, rfl, by decide, rfl, rfl, rfl, rfl, by decide⟩

/-- Claim C3 amended: for every fetch that reaches the Streaming phase, the
destination file is opened with the create and write flags set, the append
flag set exactly when resuming, and the truncate flag never set — so a
fresh (non-resume) transfer over an existing destination file may leave
stale bytes in place. -/
theorem claim_C3 (self : Downloader) (dl : Download) (env : FetchEnv)
    (hopen : (fetch self dl env).2.openAttempted = true) :
    (fetch self dl env).2.openCreate = true ∧
    (fetch self dl env).2.openWrite = true ∧
    (fetch self dl env).2.openAppend = (self.resume && envCanResume env) ∧
    (fetch self dl env).2.openTruncate = false := by
  obtain ⟨s, tr, cr, cl, sod, heq, hsk, hoa, _, hcr, _, hsod⟩ :=
    fetch_transfer_inv self dl env (Or.inr hopen)
  rw [heq] at hopen ⊢
  subst hcr hsod
  exact fetchTransfer_open_flags self env s _ cl _ tr hsk hoa hopen

theorem claim_C3_witness :
    (fetch selfResume dlX envC3c).2.openCreate = true ∧
    (fetch selfResume dlX envC3c).2.openWrite = true ∧
    (fetch selfResume dlX envC3c).2.openAppend
        = (selfResume.resume && envCanResume envC3c) ∧
    (fetch selfResume dlX envC3c).2.openTruncate = false :=
  claim_C3 selfResume dlX envC3c rfl

/-- Counterexample to claim C4 as stated: when the skip rule fires, the
Skipped reason produced by the code is "the file was already full download",
not "already fully downloaded". -/
theorem claim_C4_counterexample :
    (fetch selfResume dlX envC4c).1.status
        = Status.Skipped "the file was already full download" ∧
    ¬((fetch selfResume dlX envC4c).1.status
        = Status.Skipped "already fully downloaded") := by
  refine ⟨rfl, by decide⟩

/-- Claim C4 amended: with resume enabled, a successful probe and readable
metadata, the outcome is Skipped with reason "the file was already full
download" and no transfer request is issued, exactly when the probed total
size is known and equals the on-disk size, or the on-disk size is positive
and `totalSize.orElse(0) + onDisk` equals onDisk. -/
theorem claim_C4 (self : Downloader) (dl : Download) (env : FetchEnv)
    (resp : HeadResponse) (hres : self.resume = true)
    (hprobe : env.probe = Except.ok resp)
    (hmeta : env.metadata_error = none) :
    ((fetch self dl env).1.status
        = Status.Skipped "the file was already full download" ∧
     (fetch self dl env).2.transferSent = false)
    ↔ ((∃ n, envContentLength env = some n ∧ n = envSizeOnDisk self env) ∨
       (0 < envSizeOnDisk self env ∧
        (envContentLength env).getD 0 + envSizeOnDisk self env
          = envSizeOnDisk self env)) := by
  rw [fetch_probe_ok self dl env resp hres hprobe (fun _ => hmeta),
    ← skipCheck_iff]
  cases hsk : skipCheck (envContentLength env) (envSizeOnDisk self env) with
  | true =>
    rw [fetchTransfer_skip _ _ _ _ _ _ _ hsk]
    simp [Summary.with_status, initTrace]
  | false =>
    obtain ⟨h1, _, _, _, _⟩ := fetchTransfer_noskip self env
      { initSummary dl with resume := envCanResume env } (envCanResume env)
      (envContentLength env) (envSizeOnDisk self env)
      { initTrace with probeSent := true } hsk
    simp [h1]

theorem claim_C4_witness :
    ((fetch selfResume dlX envC4c).1.status
        = Status.Skipped "the file was already full download" ∧
     (fetch selfResume dlX envC4c).2.transferSent = false)
    ↔ ((∃ n, envContentLength envC4c = some n
          ∧ n = envSizeOnDisk selfResume envC4c) ∨
       (0 < envSizeOnDisk selfResume envC4c ∧
        (envContentLength envC4c).getD 0 + envSizeOnDisk selfResume envC4c
          = envSizeOnDisk selfResume envC4c)) :=
  claim_C4 selfResume dlX envC4c respC4 rfl rfl rfl

/-- Claim C5: `fetch_range` reports resumable exactly when the Accept-Ranges
header is present with a value other than "none" (absent or "none" gives
false), and reports a total size `n` exactly when the Content-Length header
is present, readable as a string of visible ASCII, and is a valid decimal
`u64` of value `n`; an absent Content-Length always yields no size. -/
theorem claim_C5 (resp : HeadResponse) :
    ((fetch_range resp).resume = true ↔
      ∃ v, resp.accept_ranges = some v ∧ v ≠ "none") ∧
    (resp.content_length = none → (fetch_range resp).size = none) ∧
    (∀ n, (fetch_range resp).size = some n ↔
      ∃ v, resp.content_length = some v ∧
        v.data.all isVisibleAsciiChar = true ∧ validU64String v n) := by
  refine ⟨?_, ?_, ?_⟩
  · cases har : resp.accept_ranges with
    | none => simp [fetch_range, har]
    | some v => by_cases hv : v = "none" <;> simp [fetch_range, har, hv]
  · intro h
    simp [fetch_range, h]
  · intro n
    cases hcl : resp.content_length with
    | none => simp [fetch_range, hcl]
    | some v =>
      by_cases hvis : v.data.all isVisibleAsciiChar = true
      · have h1 : headerValueToStr v = some v := by
          simp [headerValueToStr, hvis]
        simp only [fetch_range, hcl, Option.some_bind, h1, parseU64_eq_some]
        constructor
        · intro hval
          exact ⟨v, rfl, hvis, hval⟩
        · rintro ⟨w, hw, hx, hval⟩
          obtain rfl : v = w := Option.some.inj hw
          exact hval
      · have h1 : headerValueToStr v = none := by
          simp [headerValueToStr, hvis]
        simp only [fetch_range, hcl, Option.some_bind, h1, Option.none_bind]
        constructor
        · intro h
          exact absurd h (by simp)
        · rintro ⟨w, hw, hx, _⟩
          obtain rfl : v = w := Option.some.inj hw
          exact absurd hx hvis

/-- Claim C1, evaluated at the failing input: the fetch succeeds and the
`final_size` running total of streamed chunk lengths is 1000, yet the
returned Summary's `size` is 0 — `fetch` never stores the running total
back into the Summary, so on Success `size` keeps the pre-stream estimate
`content_length.unwrap_or_default() + size_on_disk`.  (The 1000 streamed
bytes moreover never reach the destination file: they sit in the
never-flushed BufWriter and are discarded on drop, so the file holds 0
bytes.) -/
theorem claim_C1 :
    (fetch selfNoResume dlX envC1).1.status = Status.Success ∧
    (fetch selfNoResume dlX envC1).2.finalSize = some 1000 ∧
    (fetch selfNoResume dlX envC1).1.size = 0 ∧
    ¬((fetch selfNoResume dlX envC1).1.size = 1000) ∧
    (fetch selfNoResume dlX envC1).2.fileLenAfter = some 0 := by
  refine ⟨rfl, rfl, rfl, by decide, rfl⟩

end TokioTrauma
